import Mathlib

/-!
Shallow embedding of the CC repository's ML service
(src/backend/app/services/ml_service.py, class MLService).

Conventions of the embedding:
* Python floats are modelled as exact rationals (`ℚ`); the numeric literals
  of the source (0.1, 0.5, 0.95, ...) appear as the corresponding rationals.
* Python dicts are modelled as ordered association lists with Python's
  assignment semantics (`insertKV`: existing key keeps its position, new key
  is appended) and `dict.get`-style lookup (`lookupKV`).
* Calls into the external numeric libraries (scikit-learn, xgboost, numpy's
  std, and the two `re.findall` pattern counters) are black boxes per the
  spec's non-goals; they are passed in as explicit function parameters, so
  every theorem quantifies over their behaviour.
* `async` plumbing (event-loop scheduling) is glue and is elided: an
  `async def` method is embedded as the function from its inputs to the
  value it produces.
-/

namespace CC

/-- Heterogeneous values stored in the Python dicts of the service
(metric records, feature vectors). -/
inductive MVal where
  | num (q : ℚ)
  | nums (l : List ℚ)
  | mbool (b : Bool)
  | mstr (s : String)
deriving DecidableEq

/-- Numeric coercion used where Python compares a dict value with a number
(Python `bool` is an `int`: `True > 0` holds). -/
def MVal.toRat : MVal → ℚ
  | .num q => q
  | .nums _ => 0
  | .mbool b => if b then 1 else 0
  | .mstr _ => 0

/-- Python `dict` lookup (`d.get(k)` / `k in d`). -/
def lookupKV : List (String × α) → String → Option α
  | [], _ => none
  | (k', v') :: t, k => if k' = k then some v' else lookupKV t k

/-- Python `dict` assignment `d[k] = v`: an existing key keeps its position
and gets the new value, a new key is appended at the end. -/
def insertKV : List (String × α) → String → α → List (String × α)
  | [], k, v => [(k, v)]
  | (k', v') :: t, k, v => if k' = k then (k', v) :: t else (k', v') :: insertKV t k v

/-! ## Feature extraction (`MLService._extract_features`, lines 232-248) -/

/-- Keyword list for money/prize words (line 244). -/
def moneyWords : List String := ["money", "free", "win", "prize", "offer"]

/-- Keyword list for urgency words (line 245). -/
def urgentWords : List String := ["urgent", "immediate", "act now", "limited time"]

/-- Python substring test `sub in s` (non-empty `sub`): `s.splitOn sub`
has more than one piece exactly when `sub` occurs in `s`. -/
def containsSub (s sub : String) : Bool := (s.splitOn sub).length > 1

/-- `sum(c.isupper() for c in text) / max(len(text), 1)` (line 239). -/
def upperShare (text : String) : ℚ :=
  ((text.toList.filter Char.isUpper).length : ℚ) / (max text.length 1 : ℚ)

/-- `MLService._extract_features` (lines 236-246): the feature dict, in the
source's insertion order.  The two `re.findall`-based counters (`url_count`,
`email_count`) are abstracted as the parameters `urlCount`, `emailCount`. -/
def extractFeatures (urlCount emailCount : String → ℕ) (text : String) :
    List (String × MVal) :=
  [("length", .num text.length),
   ("word_count", .num ((text.split Char.isWhitespace).filter (· ≠ "")).length),
   ("uppercase_ratio", .num (upperShare text)),
   ("exclamation_count", .num (text.toList.filter (· = '!')).length),
   ("question_count", .num (text.toList.filter (· = '?')).length),
   ("url_count", .num (urlCount text)),
   ("email_count", .num (emailCount text)),
   ("has_money_words", .mbool (moneyWords.any (fun w => containsSub text.toLower w))),
   ("has_urgent_words", .mbool (urgentWords.any (fun w => containsSub text.toLower w)))]

/-! ## Per-user preference state (`apply_feedback_learning`, lines 291-323) -/

/-- `self.user_preferences[user_id]` entry (lines 292-297). -/
structure UserPrefs where
  feedback_count : ℕ
  correct_predictions : ℕ
  spam_sensitivity : ℚ
  feature_weights : List (String × ℚ)
deriving DecidableEq

/-- Initial per-user entry (lines 292-297): sensitivity defaults to 0.5. -/
def defaultUserPrefs : UserPrefs :=
  { feedback_count := 0, correct_predictions := 0, spam_sensitivity := 1/2,
    feature_weights := [] }

/-- `self.learning_rate` (line 63). -/
def ledgerLearningRate : ℚ := 1/100

/-- One user feedback event as consumed by `apply_feedback_learning`. -/
structure FeedbackInput where
  email_text : String
  predicted_class : String
  correct_class : String
  confidence : ℚ
  reward : ℚ
  features : List (String × MVal)
deriving DecidableEq

/-- Feature-weight update loop (lines 314-323): initialise a missing weight
to 0.0, then, for features with value > 0, add
`learning_rate * reward * feature_value`. -/
def updateFeatureWeights (w : List (String × ℚ)) (features : List (String × MVal))
    (reward : ℚ) : List (String × ℚ) :=
  features.foldl
    (fun acc kv =>
      let acc1 := if (lookupKV acc kv.1).isSome then acc else insertKV acc kv.1 0
      if kv.2.toRat > 0 then
        insertKV acc1 kv.1 ((lookupKV acc1 kv.1).getD 0 + ledgerLearningRate * reward * kv.2.toRat)
      else acc1)
    w

/-- Per-user state update of `apply_feedback_learning` (lines 299-323):
count bookkeeping, the clamped ±0.1 sensitivity shift on a misprediction,
and the Hebbian feature-weight update. -/
def updateUserPrefs (p : UserPrefs) (ev : FeedbackInput) : UserPrefs :=
  let p1 := { p with feedback_count := p.feedback_count + 1 }
  let p2 := if ev.reward > 0 then
      { p1 with correct_predictions := p1.correct_predictions + 1 } else p1
  let p3 :=
    if ev.predicted_class ≠ ev.correct_class then
      if ev.correct_class = "spam" ∧ ev.predicted_class = "ham" then
        { p2 with spam_sensitivity := min 1 (p2.spam_sensitivity + 1/10) }
      else if ev.correct_class = "ham" ∧ ev.predicted_class = "spam" then
        { p2 with spam_sensitivity := max 0 (p2.spam_sensitivity - 1/10) }
      else p2
    else p2
  { p3 with feature_weights := updateFeatureWeights p3.feature_weights ev.features ev.reward }

/-! ## Prediction (`predict_spam` lines 202-218, `predict_email_class` lines 404-429) -/

/-- `settings.SPAM_THRESHOLD` (src/backend/app/core/config.py, line 77). -/
def SPAM_THRESHOLD : ℚ := 1/2

/-- The structured prediction response; `spam_sensitivity` is `none` when the
key is absent from the returned dict (base prediction). -/
structure Prediction where
  probability : ℚ
  is_spam : Bool
  confidence : ℚ
  user_adapted : Bool
  spam_sensitivity : Option ℚ
deriving DecidableEq

/-- Decision part of `predict_spam` (lines 204-218), with the classifier's
spam probability `p` the black-box model output. -/
def predictSpamResult (p : ℚ) : Prediction :=
  { probability := p, is_spam := decide (p > SPAM_THRESHOLD),
    confidence := max p (1 - p), user_adapted := false, spam_sensitivity := none }

/-- `predict_email_class` (lines 404-429).  The branch guard is Python's
`if user_id and user_id in self.user_preferences:`, so the empty (falsy)
user id never takes the personalised branch. -/
def predictEmailClass (p : ℚ) (userId : String)
    (userPreferences : List (String × UserPrefs)) : Prediction :=
  let base := predictSpamResult p
  if userId ≠ "" then
    match lookupKV userPreferences userId with
    | some up =>
        let s := up.spam_sensitivity
        let adjusted := max 0 (min 1 (p * (1 + (s - 1/2))))
        { base with
            probability := adjusted
            is_spam := decide (adjusted > 1/2)
            user_adapted := true
            spam_sensitivity := some s }
    | none => base
  else base

/-! ## Experience-replay buffer (`apply_deep_rl_optimization`, lines 671-675) -/

/-- Buffer step of `apply_deep_rl_optimization`: append the new experience,
then `if len(self.rl_memory) > 1000: self.rl_memory = self.rl_memory[-800:]`. -/
def rlMemoryStep (mem : List α) (e : α) : List α :=
  let m := mem ++ [e]
  if m.length > 1000 then m.drop (m.length - 800) else m

/-! ## Tabular Q-learning (`_apply_q_learning_update`, lines 762-794) -/

/-- The two actions of the Q-table rows (`{"spam": 0.0, "ham": 0.0}`). -/
inductive RLAction where
  | spam
  | ham
deriving DecidableEq

/-- One Q-table row: the per-action values of a state. -/
structure QRow where
  spam : ℚ
  ham : ℚ
deriving DecidableEq

def QRow.get (row : QRow) : RLAction → ℚ
  | .spam => row.spam
  | .ham => row.ham

def QRow.set (row : QRow) : RLAction → ℚ → QRow
  | .spam, v => { row with spam := v }
  | .ham, v => { row with ham := v }

/-- `self.discount_factor` (line 66). -/
def discountFactor : ℚ := 95/100

/-- `_apply_q_learning_update` (lines 766-785): initialise an unseen state to
`{"spam": 0.0, "ham": 0.0}`, apply the tabular update
`Q(s,a) += lr * (r + γ·max Q(s,·) - Q(s,a))`, then, when the target action
differs from the predicted one, add `lr * |r| * 0.5` to `Q(s,target)`.
Returns the new table and the reported `q_delta` (line 788: its absolute
value). -/
def applyQLearningUpdate (table : List (String × QRow)) (stateKey : String)
    (predicted target : RLAction) (reward lr : ℚ) :
    List (String × QRow) × ℚ :=
  let table1 := if (lookupKV table stateKey).isSome then table
                else insertKV table stateKey ⟨0, 0⟩
  let row := (lookupKV table1 stateKey).getD ⟨0, 0⟩
  let currentQ := row.get predicted
  let maxFutureQ := max row.spam row.ham
  let targetQ := reward + discountFactor * maxFutureQ
  let qDelta := lr * (targetQ - currentQ)
  let row1 := row.set predicted (currentQ + qDelta)
  let row2 := if target ≠ predicted then
      row1.set target (row1.get target + lr * |reward| * (1/2))
    else row1
  (insertKV table1 stateKey row2, |qDelta|)

/-! ## Feedback ledger (`apply_feedback_learning` lines 260-350,
`_adapt_model_weights` lines 360-398) -/

/-- One entry of `self.feedback_buffer` (lines 277-286); the `timestamp`
glue field is elided, `features` is the extracted feature dict. -/
structure FeedbackSample where
  email_text : String
  predicted_class : String
  correct_class : String
  confidence : ℚ
  reward : ℚ
  user_id : String
  features : List (String × MVal)
deriving DecidableEq

/-- `self.adaptation_threshold` (line 67). -/
def adaptationThreshold : ℕ := 3

/-- Decision part of `_adapt_model_weights` (lines 366-398): with a non-empty
buffer, compute the mean reward of the last 10 samples; when it is negative
and some buffered sample has negative reward, the adaptation fires (the
method returns True), otherwise it returns False.  The `feature_errors`
local of lines 384-389 is computed and then discarded by the source (only
logging), so it has no observable effect and is not modelled. -/
def adaptModelWeights (buffer : List FeedbackSample) : Bool :=
  if buffer.isEmpty then false
  else
    let recent := buffer.drop (buffer.length - 10)
    let avgReward := (recent.map (fun s => s.reward)).sum / (recent.length : ℚ)
    if avgReward < 0 then
      let incorrect := buffer.filter (fun s => s.reward < 0)
      if incorrect.isEmpty then false else true
    else false

/-- `self.model_version` suffix applied on a successful adaptation
(line 393). -/
def adaptedVersion (version : String) (bufferLen : ℕ) : String :=
  version ++ "-adapted-" ++ toString bufferLen

/-- The mutable service state touched by `apply_feedback_learning`. -/
structure MLState where
  feedback_buffer : List FeedbackSample
  user_preferences : List (String × UserPrefs)
  model_version : String
deriving DecidableEq

/-- The buffer entry `feedback_sample` built at lines 277-286. -/
def mkFeedbackSample (urlCount emailCount : String → ℕ)
    (email predicted correct : String) (confidence reward : ℚ) (userId : String) :
    FeedbackSample :=
  { email_text := email, predicted_class := predicted, correct_class := correct,
    confidence := confidence, reward := reward, user_id := userId,
    features := extractFeatures urlCount emailCount email }

/-- `apply_feedback_learning` (lines 260-350): append the sample to the
buffer, create/update the user's preference entry, and, once the buffer has
reached `adaptation_threshold`, run `_adapt_model_weights`; the buffer is
emptied only inside the `if model_updated:` branch (lines 333-338).
Returns the new state and the `model_updated` flag. -/
def applyFeedbackLearning (urlCount emailCount : String → ℕ) (st : MLState)
    (email predicted correct : String) (confidence reward : ℚ) (userId : String) :
    MLState × Bool :=
  let sample := mkFeedbackSample urlCount emailCount email predicted correct confidence reward userId
  let buf := st.feedback_buffer ++ [sample]
  let prior := (lookupKV st.user_preferences userId).getD defaultUserPrefs
  let ev : FeedbackInput :=
    { email_text := email, predicted_class := predicted, correct_class := correct,
      confidence := confidence, reward := reward, features := sample.features }
  let newPrefs := insertKV st.user_preferences userId (updateUserPrefs prior ev)
  if buf.length ≥ adaptationThreshold then
    let updated := adaptModelWeights buf
    if updated then
      ({ feedback_buffer := []
         user_preferences := newPrefs
         model_version := adaptedVersion st.model_version buf.length }, true)
    else
      ({ feedback_buffer := buf
         user_preferences := newPrefs
         model_version := st.model_version }, false)
  else
    ({ feedback_buffer := buf
       user_preferences := newPrefs
       model_version := st.model_version }, false)

/-! ## Training orchestrator (`train_model` lines 927-1028,
`_train_xgboost_rl_model` lines 1045-1104, `_get_fallback_metrics`
lines 1106-1169) -/

/-- The dict of metric values a training run returns. -/
abbrev Metrics := List (String × MVal)

/-- Black-box interface to the scikit-learn/xgboost calls the orchestrator
makes.  `tts` is `train_test_split` as `(train, test)`; the metric scorers
take the data a fitted model is evaluated on.  `cv_len` is scikit-learn's
contract that `cross_val_score` with a `k`-fold splitter returns `k`
scores. -/
structure SK (S : Type) where
  tts : List S → List S × List S
  cross_val_score : List S → ℕ → List ℚ
  accuracy_score : List S → ℚ
  precision_score : List S → ℚ
  recall_score : List S → ℚ
  f1_score : List S → ℚ
  cv_len : ∀ d k, (cross_val_score d k).length = k

/-- A training run's observable outcome: the data each stage consumed
(`none` on the fallback path, which touches no data) plus the returned
metrics dict. -/
structure TrainRun (S : Type) where
  cvData : Option (List S)
  fitData : Option (List S)
  evalData : Option (List S)
  metrics : Metrics
deriving DecidableEq

/-- The sklearn-family model keys of `available_models` (lines 71-79)
reachable through the generic branch of `train_model` (an unknown key raises
`ValueError`, which the outer handler turns into fallback metrics). -/
def sklearnModels : List String :=
  ["xgboost", "random_forest", "neural_network", "svm", "logistic_regression",
   "naive_bayes"]

/-- RL boost of `_train_xgboost_rl_model` (lines 1064-1079): the positive
fraction of the replay buffer times 0.05, plus `min(0.03, |Q-table|*0.001)`
when the Q-table is non-empty.  `rlMemory` is the list of buffered rewards. -/
def rlBoost (rlMemory : List ℚ) (qTableSize : ℕ) : ℚ :=
  let b1 := if rlMemory.isEmpty then 0
    else ((rlMemory.filter (fun r => r > 0)).length : ℚ) / (rlMemory.length : ℚ) * (5/100)
  if qTableSize ≠ 0 then b1 + min (3/100) ((qTableSize : ℚ) * (1/1000)) else b1

/-- `_train_xgboost_rl_model` (lines 1045-1100): cross-validation, fit and
evaluation all use the full dataset; the metrics get the capped RL boost and
the returned dict has no train/test sample counts. -/
def trainXgboostRl (sk : SK S) (data : List S) (kFolds : ℕ)
    (rlMemory : List ℚ) (qTableSize : ℕ) : TrainRun S :=
  let cv := sk.cross_val_score data kFolds
  let boost := rlBoost rlMemory qTableSize
  { cvData := some data
    fitData := some data
    evalData := some data
    metrics :=
      [("accuracy", .num (min (97/100) (sk.accuracy_score data + boost * (8/10)))),
       ("precision", .num (min (96/100) (sk.precision_score data + boost * (7/10)))),
       ("recall", .num (min (98/100) (sk.recall_score data + boost * (9/10)))),
       ("f1_score", .num (min (98/100) (sk.f1_score data + boost))),
       ("cv_scores", .nums (cv.map (fun x => x + boost))),
       ("rl_enhancement", .num boost),
       ("rl_feedback_count", .num rlMemory.length)] }

/-- Generic branch of `train_model` (lines 985-1024): 80/20
`train_test_split`, cross-validation and the final fit on the train portion
only, metrics on the held-out test portion only.  `npStd` abstracts
`np.std` (irrational on ℚ). -/
def trainSklearnModel (sk : SK S) (data : List S) (kFolds : ℕ)
    (npStd : List ℚ → ℚ) : TrainRun S :=
  let split := sk.tts data
  let xtrain := split.1
  let xtest := split.2
  let cv := sk.cross_val_score xtrain kFolds
  { cvData := some xtrain
    fitData := some xtrain
    evalData := some xtest
    metrics :=
      [("accuracy", .num (sk.accuracy_score xtest)),
       ("precision", .num (sk.precision_score xtest)),
       ("recall", .num (sk.recall_score xtest)),
       ("f1_score", .num (sk.f1_score xtest)),
       ("cv_scores", .nums cv),
       ("mean_cv_score", .num (cv.sum / (cv.length : ℚ))),
       ("std_cv_score", .num (npStd cv)),
       ("test_samples", .num xtest.length),
       ("train_samples", .num xtrain.length)] }

/-- The `realistic_metrics` table of `_get_fallback_metrics`
(lines 1114-1122): (accuracy, precision, recall, f1). -/
def realisticMetrics : List (String × (ℚ × ℚ × ℚ × ℚ)) :=
  [("xgboost_rl", (947/1000, 951/1000, 942/1000, 947/1000)),
   ("xgboost", (92/100, 925/1000, 915/1000, 92/100)),
   ("random_forest", (905/1000, 91/100, 9/10, 905/1000)),
   ("neural_network", (89/100, 9/10, 885/1000, 893/1000)),
   ("svm", (885/1000, 89/100, 88/100, 885/1000)),
   ("logistic_regression", (88/100, 89/100, 875/1000, 882/1000)),
   ("naive_bayes", (87/100, 88/100, 865/1000, 872/1000))]

/-- `_get_fallback_metrics` (lines 1106-1169), the estimated-metrics record
for untrained/unavailable configurations.  `noise` abstracts
`random.gauss(0, variance)` per CV fold, `npStd` abstracts `np.std`, `ts`
the timestamp string.  The record carries the `_is_fallback` flag and its
F1 is capped at 0.95. -/
def getFallbackMetrics (model : String) (kFolds : ℕ) (rlMemory : List ℚ)
    (noise : ℕ → ℚ) (npStd : List ℚ → ℚ) (ts : String) : Metrics :=
  let base := (lookupKV realisticMetrics model).getD (88/100, 89/100, 875/1000, 882/1000)
  let boost : ℚ :=
    if model = "xgboost_rl" then
      if rlMemory.isEmpty then 5/1000
      else ((rlMemory.filter (fun r => r > 0)).length : ℚ) / (rlMemory.length : ℚ) * (15/1000)
    else 0
  let cap : ℚ → ℚ := fun v => if model = "xgboost_rl" then min (96/100) (v + boost) else v
  let f1b := cap base.2.2.2
  let variance : ℚ := if model ≠ "naive_bayes" then 15/1000 else 25/1000
  let cv := (List.range kFolds).map (fun i => max (7/10) (min (95/100) (f1b + noise i)))
  let entries :=
    [("accuracy", MVal.num (cap base.1)),
     ("precision", MVal.num (cap base.2.1)),
     ("recall", MVal.num (cap base.2.2.1)),
     ("f1_score", MVal.num f1b)]
    ++ (if model = "xgboost_rl" then [("rl_boost_applied", MVal.num boost)] else [])
    ++ [("cv_scores", MVal.nums cv),
        ("mean_cv_score", MVal.num (if cv.isEmpty then f1b else cv.sum / (cv.length : ℚ))),
        ("std_cv_score", MVal.num (if cv.isEmpty then variance else npStd cv)),
        ("_is_fallback", MVal.mbool true),
        ("_warning", MVal.mstr ("⚠️ FALLBACK ESTIMATES - " ++ model ++ " not trained yet")),
        ("_source", MVal.mstr "uci_spambase_estimates"),
        ("_recommendation", MVal.mstr ("Train " ++ model ++ " to get actual performance metrics")),
        ("_timestamp", MVal.mstr ts),
        ("_legitimate", MVal.mbool false)]
  if f1b > 95/100 then insertKV entries "f1_score" (MVal.num (min (95/100) f1b))
  else entries

/-- `train_model` (lines 927-1028) dispatch: fallback metrics when
scikit-learn is unavailable, the dataset file is absent, or the key is
unknown (the raised `ValueError` is caught by the orchestrator's handler);
the special flagship path for `"xgboost_rl"`; the generic split-protocol
path otherwise.  The fallback path touches no dataset. -/
def trainModel (sklearnAvailable : Bool) (sk : SK S) (dataset : Option (List S))
    (kFolds : ℕ) (rlMemory : List ℚ) (qTableSize : ℕ) (noise : ℕ → ℚ)
    (npStd : List ℚ → ℚ) (ts : String) (model : String) : TrainRun S :=
  let fb : TrainRun S :=
    { cvData := none, fitData := none, evalData := none,
      metrics := getFallbackMetrics model kFolds rlMemory noise npStd ts }
  if ¬ sklearnAvailable then fb
  else
    match dataset with
    | none => fb
    | some data =>
      if model = "xgboost_rl" then trainXgboostRl sk data kFolds rlMemory qTableSize
      else if model ∈ sklearnModels then trainSklearnModel sk data kFolds npStd
      else fb

/-! ## Model comparator (`compare_all_models`, lines 1171-1247) -/

/-- The non-flagship `available_models` keys in dict insertion order. -/
def restModels : List String :=
  ["xgboost", "random_forest", "neural_network", "svm", "logistic_regression",
   "naive_bayes"]

/-- `available_models` keys in dict insertion order (lines 71-79): the
flagship key first, then the rest; this is also ascending priority order. -/
def modelOrder : List String := "xgboost_rl" :: restModels

/-- The priority field of `available_models` (lines 71-79). -/
def modelPriorities : List (String × ℕ) :=
  [("xgboost_rl", 1), ("xgboost", 2), ("random_forest", 3), ("neural_network", 4),
   ("svm", 5), ("logistic_regression", 6), ("naive_bayes", 7)]

/-- Per-model metric resolution of `compare_all_models` (lines 1186-1217):
a stored genuine result wins; else a loaded trained model's freshly computed
metrics (`calcF1 = none` models the caught computation failure); else the
fallback estimate when `allow_fallback_estimates`, otherwise the model is
omitted (`none`). -/
def resolveModelMetrics (storedF1 : Option ℚ) (inModels : Bool) (calcF1 : Option ℚ)
    (allowFallback : Bool) (fallbackF1 : ℚ) : Option ℚ :=
  match storedF1 with
  | some f => some f
  | none =>
    if inModels then
      match calcF1 with
      | some f => some f
      | none => if allowFallback then some fallbackF1 else none
    else if allowFallback then some fallbackF1 else none

/-- The `best_model` record built at lines 1224-1230. -/
structure BestModel where
  key : String
  f1 : ℚ
  is_trained : Bool
  priority : ℕ
deriving DecidableEq

/-- The running `best_f1` variable of `compare_all_models` (line 1183,
initially 0), as read off the running `best_model`. -/
def bestF1D : Option BestModel → ℚ
  | none => 0
  | some b => b.f1

/-- One iteration of the best-model selection loop (lines 1221-1234): a
model with resolved metrics becomes best when it is the flagship key
`"xgboost_rl"` or its F1 strictly exceeds the running `best_f1`
(initially 0).  `inModels` is the `model_name in self.models` test. -/
def bestStep (inModels : String → Bool) (acc : Option BestModel)
    (entry : String × Option ℚ) : Option BestModel :=
  match entry.2 with
  | none => acc
  | some f1 =>
    if entry.1 = "xgboost_rl" ∨ f1 > bestF1D acc then
      some { key := entry.1, f1 := f1, is_trained := inModels entry.1,
             priority := (lookupKV modelPriorities entry.1).getD 99 }
    else acc

/-- Best-model selection of `compare_all_models` over the registry order,
with `resolved k` the per-model resolved F1 (`none` = model omitted from
the results dict). -/
def compareBest (inModels : String → Bool) (resolved : String → Option ℚ) :
    Option BestModel :=
  (modelOrder.map (fun k => (k, resolved k))).foldl (bestStep inModels) none

/-! ## Concrete instances used by witnesses and counterexamples -/

/-- A concrete scikit-learn black box over `ℕ`-coded samples: the 80/20
split takes the scikit-learn test-set size `ceil(n/5)` and returns
`(train, test)`; every scorer is constant. -/
def skNat : SK ℕ where
  tts := fun l => (l.drop ((l.length + 4) / 5), l.take ((l.length + 4) / 5))
  cross_val_score := fun _ k => List.replicate k (9/10)
  accuracy_score := fun _ => 9/10
  precision_score := fun _ => 9/10
  recall_score := fun _ => 9/10
  f1_score := fun _ => 9/10
  cv_len := fun _ k => List.length_replicate k _

/-- The spec's comparator scenario: flagship resolved at F1 = 0.920, the
competitor `"xgboost"` resolved at F1 = 0.921, everything else omitted. -/
def scenarioResolved : String → Option ℚ := fun k =>
  if k = "xgboost_rl" then some (92/100)
  else if k = "xgboost" then some (921/1000) else none

/-- A resolution map with only the flagship resolved (at F1 = 0.9). -/
def flagshipOnlyResolved : String → Option ℚ := fun k =>
  if k = "xgboost_rl" then some (9/10) else none

/-- The trivial pattern counter used for concrete feedback runs. -/
def zeroCount : String → ℕ := fun _ => 0

/-- The service's initial mutable state (`__init__`, lines 51, 61, 68). -/
def initialMLState : MLState :=
  { feedback_buffer := [], user_preferences := [], model_version := "1.0.0-dev" }

/-- One confirming feedback call (`reward = +1`, prediction confirmed) on
empty email text, as used by the C2 counterexample run. -/
def confirmingCall (st : MLState) : MLState :=
  (applyFeedbackLearning zeroCount zeroCount st "" "spam" "spam" 1 1 "u").1

/-- The state after three confirming feedback calls: the third call makes
the buffer reach `adaptation_threshold = 3`. -/
def stateAfterThree : MLState :=
  confirmingCall (confirmingCall (confirmingCall initialMLState))

/-! # Theorems -/

/-! ## Association-list helpers -/

theorem lookupKV_insertKV_self (l : List (String × α)) (k : String) (v : α) :
    lookupKV (insertKV l k v) k = some v := by
  induction l with
  | nil => simp [insertKV, lookupKV]
  | cons h t ih =>
    obtain ⟨a, b⟩ := h
    by_cases hk : a = k
    · simp [insertKV, hk, lookupKV]
    · simp [insertKV, hk, lookupKV, ih]

theorem lookupKV_insertKV_ne (l : List (String × α)) (k k' : String) (v : α)
    (h : k' ≠ k) : lookupKV (insertKV l k v) k' = lookupKV l k' := by
  induction l with
  | nil => simp [insertKV, lookupKV, Ne.symm h]
  | cons hd t ih =>
    obtain ⟨a, b⟩ := hd
    by_cases hk : a = k
    · subst hk
      simp [insertKV, lookupKV, Ne.symm h]
    · by_cases hk' : a = k'
      · simp [insertKV, hk, lookupKV, hk', h]
      · simp [insertKV, hk, lookupKV, hk', ih]

/-! ## Q-row accessors -/

theorem QRow_get_set_same (row : QRow) (a : RLAction) (v : ℚ) :
    (row.set a v).get a = v := by
  cases a <;> rfl

theorem QRow_get_set_ne (row : QRow) (a b : RLAction) (v : ℚ) (h : a ≠ b) :
    (row.set a v).get b = row.get b := by
  cases a <;> cases b <;> first | rfl | exact absurd rfl h

/-! ## List-suffix helpers -/

theorem isSuffix_append_right {s t : List α} (u : List α) (h : s <:+ t) :
    s ++ u <:+ t ++ u := by
  obtain ⟨w, hw⟩ := h
  exact ⟨w, by rw [← hw, List.append_assoc]⟩

/-! ## C4: spam_sensitivity stays in [0,1] -/

theorem updateUserPrefs_sens_eq (p : UserPrefs) (ev : FeedbackInput) :
    (updateUserPrefs p ev).spam_sensitivity =
      if ev.predicted_class ≠ ev.correct_class then
        if ev.correct_class = "spam" ∧ ev.predicted_class = "ham" then
          min 1 (p.spam_sensitivity + 1/10)
        else if ev.correct_class = "ham" ∧ ev.predicted_class = "spam" then
          max 0 (p.spam_sensitivity - 1/10)
        else p.spam_sensitivity
      else p.spam_sensitivity := by
  unfold updateUserPrefs
  dsimp only
  split_ifs <;> rfl

theorem updateUserPrefs_sens_bounds (p : UserPrefs) (ev : FeedbackInput)
    (h0 : 0 ≤ p.spam_sensitivity) (h1 : p.spam_sensitivity ≤ 1) :
    0 ≤ (updateUserPrefs p ev).spam_sensitivity ∧
      (updateUserPrefs p ev).spam_sensitivity ≤ 1 := by
  rw [updateUserPrefs_sens_eq]
  split_ifs
  · exact ⟨le_min (by norm_num) (by linarith), min_le_left _ _⟩
  · exact ⟨le_max_left _ _, max_le (by norm_num) (by linarith)⟩
  · exact ⟨h0, h1⟩
  · exact ⟨h0, h1⟩

theorem foldl_updateUserPrefs_bounds (evs : List FeedbackInput) :
    ∀ p : UserPrefs, 0 ≤ p.spam_sensitivity → p.spam_sensitivity ≤ 1 →
      0 ≤ (evs.foldl updateUserPrefs p).spam_sensitivity ∧
        (evs.foldl updateUserPrefs p).spam_sensitivity ≤ 1 := by
  induction evs with
  | nil => exact fun p h0 h1 => ⟨h0, h1⟩
  | cons e t ih =>
    intro p h0 h1
    have h := updateUserPrefs_sens_bounds p e h0 h1
    simpa using ih _ h.1 h.2

/-- Claim C4: for every sequence of feedback events processed through the
per-user update of `apply_feedback_learning`, the user's `spam_sensitivity`
starts at the default 0.5 and remains within [0, 1] after every update (the
±0.1 adjustments are clamped). -/
theorem spam_sensitivity_invariant (evs : List FeedbackInput) :
    defaultUserPrefs.spam_sensitivity = 1/2
    ∧ 0 ≤ (evs.foldl updateUserPrefs defaultUserPrefs).spam_sensitivity
    ∧ (evs.foldl updateUserPrefs defaultUserPrefs).spam_sensitivity ≤ 1 := by
  have h := foldl_updateUserPrefs_bounds evs defaultUserPrefs
    (by norm_num [defaultUserPrefs]) (by norm_num [defaultUserPrefs])
  exact ⟨rfl, h.1, h.2⟩

/-! ## C5: experience-replay buffer capacity -/

theorem rlMemoryStep_length_le (mem : List α) (e : α) :
    (rlMemoryStep mem e).length ≤ 1000 := by
  unfold rlMemoryStep
  dsimp only
  split_ifs with h
  · simp only [List.length_drop]
    omega
  · omega

theorem rlMemoryStep_suffix (mem : List α) (e : α) :
    rlMemoryStep mem e <:+ mem ++ [e] := by
  unfold rlMemoryStep
  dsimp only
  split_ifs with h
  · exact List.drop_suffix _ _
  · exact List.suffix_refl _

theorem foldl_rlMemoryStep_suffix (l : List α) :
    ∀ st, List.foldl rlMemoryStep st l <:+ st ++ l := by
  induction l with
  | nil => intro st; simp
  | cons e t ih =>
    intro st
    have h1 := ih (rlMemoryStep st e)
    have h2 : rlMemoryStep st e ++ t <:+ (st ++ [e]) ++ t :=
      isSuffix_append_right t (rlMemoryStep_suffix st e)
    have h3 : (st ++ [e]) ++ t = st ++ (e :: t) := by simp
    rw [h3] at h2
    simpa using h1.trans h2

theorem foldl_rlMemoryStep_length (l : List α) :
    ∀ st, l ≠ [] → (List.foldl rlMemoryStep st l).length ≤ 1000 := by
  induction l with
  | nil => exact fun st h => absurd rfl h
  | cons e t ih =>
    intro st _
    cases t with
    | nil => simpa using rlMemoryStep_length_le st e
    | cons e2 t2 => simpa using ih (rlMemoryStep st e) (by simp)

/-- Claim C5: each `apply_deep_rl_optimization` call appends exactly one
experience; when the buffer then exceeds 1000 entries it is truncated to the
most recent 800 (oldest dropped), so the buffer never exceeds 1000 at the
end of a call, and after any non-empty run of insertions (e.g. 1005 of
them) it holds at most 1000 entries and is a suffix of the insertion
sequence (only the most recent entries). -/
theorem rl_memory_capacity_invariant (mem : List α) (e : α) (inputs : List α) :
    (rlMemoryStep mem e).length ≤ 1000
    ∧ rlMemoryStep mem e <:+ mem ++ [e]
    ∧ ((mem ++ [e]).length ≤ 1000 → rlMemoryStep mem e = mem ++ [e])
    ∧ ((mem ++ [e]).length > 1000 →
        rlMemoryStep mem e = (mem ++ [e]).drop ((mem ++ [e]).length - 800)
        ∧ (rlMemoryStep mem e).length = 800)
    ∧ (inputs ≠ [] →
        (List.foldl rlMemoryStep ([] : List α) inputs).length ≤ 1000
        ∧ List.foldl rlMemoryStep ([] : List α) inputs <:+ inputs) := by
  refine ⟨rlMemoryStep_length_le mem e, rlMemoryStep_suffix mem e, ?_, ?_, ?_⟩
  · intro h
    unfold rlMemoryStep
    dsimp only
    rw [if_neg (by omega)]
  · intro h
    constructor
    · unfold rlMemoryStep
      dsimp only
      rw [if_pos h]
    · unfold rlMemoryStep
      dsimp only
      rw [if_pos h]
      simp only [List.length_drop]
      omega
  · intro h
    exact ⟨foldl_rlMemoryStep_length inputs [] h,
      by simpa using foldl_rlMemoryStep_suffix inputs []⟩

/-- Witness for C5 at a concrete input. -/
theorem rl_memory_capacity_invariant_witness :
    (rlMemoryStep ([] : List ℕ) 0).length ≤ 1000
    ∧ rlMemoryStep ([] : List ℕ) 0 <:+ [] ++ [0] :=
  ⟨(rl_memory_capacity_invariant [] 0 [0]).1,
   (rl_memory_capacity_invariant [] 0 [0]).2.1⟩

/-! ## C8: the feature vector -/

theorem upperShare_nonneg (t : String) : 0 ≤ upperShare t := by
  unfold upperShare
  apply div_nonneg (Nat.cast_nonneg _)
  exact le_trans zero_le_one (le_max_right _ _)

theorem upperShare_le_one (t : String) : upperShare t ≤ 1 := by
  unfold upperShare
  rw [div_le_one (lt_of_lt_of_le zero_lt_one (le_max_right _ _))]
  calc ((t.toList.filter Char.isUpper).length : ℚ)
      ≤ (t.length : ℚ) := Nat.cast_le.mpr (List.length_filter_le _ _)
    _ ≤ max (t.length : ℚ) 1 := le_max_left _ _

theorem upperShare_empty : upperShare "" = 0 := by
  unfold upperShare
  have h : "".toList = [] := rfl
  rw [h]
  simp

/-- Claim C8 (amended): for every input text the feature extractor returns a
complete feature dict with exactly these NINE named fields (not ten), with
`uppercase_ratio` in [0, 1] and equal to 0 on empty text. -/
theorem extract_features_nine_fields (u e : String → ℕ) (text : String) :
    (extractFeatures u e text).map Prod.fst =
      ["length", "word_count", "uppercase_ratio", "exclamation_count",
       "question_count", "url_count", "email_count", "has_money_words",
       "has_urgent_words"]
    ∧ (extractFeatures u e text).length = 9
    ∧ lookupKV (extractFeatures u e text) "uppercase_ratio"
        = some (.num (upperShare text))
    ∧ 0 ≤ upperShare text ∧ upperShare text ≤ 1
    ∧ (text = "" → upperShare text = 0) := by
  refine ⟨rfl, rfl, rfl, upperShare_nonneg text, upperShare_le_one text, ?_⟩
  rintro rfl
  exact upperShare_empty

/-- Counterexample to C8 as stated: the feature dict built by
`_extract_features` has 9 fields, not the claimed 10. -/
theorem extract_features_not_ten :
    (extractFeatures (fun _ => 0) (fun _ => 0) "").length = 9
    ∧ (extractFeatures (fun _ => 0) (fun _ => 0) "").length ≠ 10 :=
  ⟨rfl, by decide⟩

/-- Witness for C8 at a concrete input. -/
theorem extract_features_nine_fields_witness :
    lookupKV (extractFeatures (fun _ => 0) (fun _ => 0) "") "uppercase_ratio"
        = some (.num (upperShare ""))
    ∧ upperShare "" = 0 :=
  ⟨(extract_features_nine_fields (fun _ => 0) (fun _ => 0) "").2.2.1,
   (extract_features_nine_fields (fun _ => 0) (fun _ => 0) "").2.2.2.2.2 rfl⟩

/-! ## C9: the personalised probability formula -/

/-- Claim C9: for a non-empty user id present in the preference map, the
personalised probability equals `clamp(p * (1 + (s - 0.5)), 0, 1)`, and at
neutral sensitivity s = 0.5 it equals the base probability for p in [0,1]. -/
theorem personalized_probability_formula (p : ℚ) (uid : String)
    (prefs : List (String × UserPrefs)) (up : UserPrefs)
    (hu : uid ≠ "") (hl : lookupKV prefs uid = some up) :
    (predictEmailClass p uid prefs).probability
        = max 0 (min 1 (p * (1 + (up.spam_sensitivity - 1/2))))
    ∧ (up.spam_sensitivity = 1/2 → 0 ≤ p → p ≤ 1 →
        (predictEmailClass p uid prefs).probability = p) := by
  constructor
  · simp [predictEmailClass, hu, hl]
  · intro hs h0 h1
    simp [predictEmailClass, hu, hl, hs]
    rw [min_eq_right h1, max_eq_right h0]

/-- Witness for C9 at a concrete input. -/
theorem personalized_probability_formula_witness :
    (predictEmailClass (3/5) "u" [("u", defaultUserPrefs)]).probability
        = max 0 (min 1 ((3/5) * (1 + (defaultUserPrefs.spam_sensitivity - 1/2))))
    ∧ (defaultUserPrefs.spam_sensitivity = 1/2 → 0 ≤ (3/5 : ℚ) → (3/5 : ℚ) ≤ 1 →
        (predictEmailClass (3/5) "u" [("u", defaultUserPrefs)]).probability = 3/5) :=
  personalized_probability_formula (3/5) "u" [("u", defaultUserPrefs)]
    defaultUserPrefs (by decide) rfl

/-! ## C10: the personalised decision branch -/

/-- Claim C10 (amended): for every NON-EMPTY user id present in the
preference map, `predict_email_class` re-derives the decision against the
fixed 0.5 threshold and marks `user_adapted`; for the empty, unknown or
absent user id the base prediction (thresholded by `SPAM_THRESHOLD`) is
returned unmodified. -/
theorem predict_email_class_user_branch (p : ℚ) (uid : String)
    (prefs : List (String × UserPrefs)) :
    (∀ up : UserPrefs, uid ≠ "" → lookupKV prefs uid = some up →
      predictEmailClass p uid prefs =
        { probability := max 0 (min 1 (p * (1 + (up.spam_sensitivity - 1/2))))
          is_spam := decide (max 0 (min 1 (p * (1 + (up.spam_sensitivity - 1/2)))) > 1/2)
          confidence := max p (1 - p)
          user_adapted := true
          spam_sensitivity := some up.spam_sensitivity })
    ∧ ((uid = "" ∨ lookupKV prefs uid = none) →
        predictEmailClass p uid prefs = predictSpamResult p) := by
  constructor
  · intro up hu hl
    simp [predictEmailClass, hu, hl, predictSpamResult]
  · rintro (rfl | hn)
    · simp [predictEmailClass]
    · by_cases hu : uid = ""
      · simp [predictEmailClass, hu]
      · simp [predictEmailClass, hu, hn]

/-- Counterexample to C10 as stated: the empty user id, although present in
the preference map, is never personalised (Python's falsy-string guard). -/
theorem predict_email_class_empty_user :
    lookupKV [("", defaultUserPrefs)] "" = some defaultUserPrefs
    ∧ (predictEmailClass 1 "" [("", defaultUserPrefs)]).user_adapted = false :=
  ⟨rfl, rfl⟩

/-- Witness for C10 at a concrete input. -/
theorem predict_email_class_user_branch_witness :
    predictEmailClass 1 "u" [("u", defaultUserPrefs)] =
      { probability := max 0 (min 1 (1 * (1 + (defaultUserPrefs.spam_sensitivity - 1/2))))
        is_spam := decide (max 0 (min 1 (1 * (1 + (defaultUserPrefs.spam_sensitivity - 1/2)))) > 1/2)
        confidence := max 1 (1 - 1)
        user_adapted := true
        spam_sensitivity := some defaultUserPrefs.spam_sensitivity } :=
  (predict_email_class_user_branch 1 "u" [("u", defaultUserPrefs)]).1
    defaultUserPrefs (by decide) rfl

/-! ## C7: the Q-learning update -/

theorem applyQLearningUpdate_table1 (table : List (String × QRow)) (s : String) :
    (lookupKV (if (lookupKV table s).isSome then table else insertKV table s ⟨0, 0⟩) s).getD ⟨0, 0⟩
      = (lookupKV table s).getD ⟨0, 0⟩ := by
  cases hls : lookupKV table s with
  | some v => simp [hls]
  | none => simp [hls, lookupKV_insertKV_self]

/-- Claim C7: `_apply_q_learning_update` initialises unseen states to
`{spam: 0, ham: 0}`, performs the tabular update
`Q(s,a) += lr * (r + 0.95 * max Q(s,·) - Q(s,a))` with the fixed discount
factor 0.95, and adds the correct-action boost `lr * |r| * 0.5` to
`Q(s,target)` exactly when the target differs from the predicted action;
no other state's row changes. -/
theorem q_learning_update_formula (table : List (String × QRow)) (s : String)
    (a t : RLAction) (r lr : ℚ) :
    discountFactor = 95/100
    ∧ ((lookupKV (applyQLearningUpdate table s a t r lr).1 s).getD ⟨0, 0⟩).get a
        = ((lookupKV table s).getD ⟨0, 0⟩).get a
          + lr * (r + discountFactor
              * (max ((lookupKV table s).getD ⟨0, 0⟩).spam ((lookupKV table s).getD ⟨0, 0⟩).ham)
            - ((lookupKV table s).getD ⟨0, 0⟩).get a)
    ∧ (t ≠ a → ((lookupKV (applyQLearningUpdate table s a t r lr).1 s).getD ⟨0, 0⟩).get t
        = ((lookupKV table s).getD ⟨0, 0⟩).get t + lr * |r| * (1/2))
    ∧ (t = a → (lookupKV (applyQLearningUpdate table s a t r lr).1 s).getD ⟨0, 0⟩
        = ((lookupKV table s).getD ⟨0, 0⟩).set a
            (((lookupKV table s).getD ⟨0, 0⟩).get a
              + lr * (r + discountFactor
                  * (max ((lookupKV table s).getD ⟨0, 0⟩).spam ((lookupKV table s).getD ⟨0, 0⟩).ham)
                - ((lookupKV table s).getD ⟨0, 0⟩).get a)))
    ∧ (applyQLearningUpdate table s a t r lr).2
        = |lr * (r + discountFactor
            * (max ((lookupKV table s).getD ⟨0, 0⟩).spam ((lookupKV table s).getD ⟨0, 0⟩).ham)
          - ((lookupKV table s).getD ⟨0, 0⟩).get a)|
    ∧ (∀ s2, s2 ≠ s →
        lookupKV (applyQLearningUpdate table s a t r lr).1 s2 = lookupKV table s2) := by
  unfold applyQLearningUpdate
  dsimp only
  rw [applyQLearningUpdate_table1, lookupKV_insertKV_self]
  refine ⟨rfl, ?_, ?_, ?_, rfl, ?_⟩
  · by_cases hta : t = a
    · rw [if_neg (by simpa using hta)]
      dsimp only [Option.getD]
      rw [QRow_get_set_same]
    · rw [if_pos hta]
      dsimp only [Option.getD]
      rw [QRow_get_set_ne _ _ _ _ hta, QRow_get_set_same]
  · intro hta
    rw [if_pos hta]
    dsimp only [Option.getD]
    rw [QRow_get_set_ne _ _ _ _ (Ne.symm hta), QRow_get_set_same]
  · intro hta
    rw [if_neg (by simpa using hta)]
    rfl
  · intro s2 hs2
    rw [lookupKV_insertKV_ne _ _ _ _ hs2]
    cases hls : lookupKV table s with
    | some v => simp [hls]
    | none => simp [hls, lookupKV_insertKV_ne _ _ _ _ hs2]

/-! ## C2: buffer clearing on adaptation -/

theorem applyFeedbackLearning_buffer (u e : String → ℕ) (st : MLState)
    (email predicted correct : String) (confidence reward : ℚ) (userId : String) :
    (applyFeedbackLearning u e st email predicted correct confidence reward userId).1.feedback_buffer
      = if (st.feedback_buffer
            ++ [mkFeedbackSample u e email predicted correct confidence reward userId]).length
            ≥ adaptationThreshold then
          (if adaptModelWeights (st.feedback_buffer
              ++ [mkFeedbackSample u e email predicted correct confidence reward userId]) then []
           else st.feedback_buffer
              ++ [mkFeedbackSample u e email predicted correct confidence reward userId])
        else st.feedback_buffer
            ++ [mkFeedbackSample u e email predicted correct confidence reward userId] := by
  unfold applyFeedbackLearning
  dsimp only
  split_ifs <;> rfl

/-- Claim C2 (amended): when a `record_feedback` call makes the buffer reach
the adaptation threshold, `_adapt_model_weights` runs, and the buffer is
cleared iff that pass reports a model update (negative mean recent reward);
otherwise the appended buffer is retained.  Below the threshold nothing
fires. -/
theorem feedback_buffer_clear_iff_adapt (u e : String → ℕ) (st : MLState)
    (email predicted correct : String) (confidence reward : ℚ) (userId : String) :
    let sample := mkFeedbackSample u e email predicted correct confidence reward userId
    let buf := st.feedback_buffer ++ [sample]
    let result := applyFeedbackLearning u e st email predicted correct confidence reward userId
    (buf.length ≥ adaptationThreshold →
        result.1.feedback_buffer = (if adaptModelWeights buf then [] else buf)
        ∧ result.2 = adaptModelWeights buf)
    ∧ (buf.length < adaptationThreshold →
        result.1.feedback_buffer = buf ∧ result.2 = false) := by
  dsimp only
  unfold applyFeedbackLearning
  dsimp only
  constructor
  · intro h
    rw [if_pos h]
    split_ifs with had <;> exact ⟨rfl, by simp [had]⟩
  · intro h
    rw [if_neg (by omega)]
    exact ⟨rfl, rfl⟩

/-- Witness for C2 at a concrete input (first call, below threshold). -/
theorem feedback_buffer_clear_iff_adapt_witness :
    (applyFeedbackLearning zeroCount zeroCount initialMLState "" "spam" "spam" 1 1 "u").1.feedback_buffer
      = initialMLState.feedback_buffer
        ++ [mkFeedbackSample zeroCount zeroCount "" "spam" "spam" 1 1 "u"]
    ∧ (applyFeedbackLearning zeroCount zeroCount initialMLState "" "spam" "spam" 1 1 "u").2 = false :=
  (feedback_buffer_clear_iff_adapt zeroCount zeroCount initialMLState
    "" "spam" "spam" 1 1 "u").2 (by decide)

theorem adaptModelWeights_three_confirming :
    adaptModelWeights [mkFeedbackSample zeroCount zeroCount "" "spam" "spam" 1 1 "u",
      mkFeedbackSample zeroCount zeroCount "" "spam" "spam" 1 1 "u",
      mkFeedbackSample zeroCount zeroCount "" "spam" "spam" 1 1 "u"] = false := by
  unfold adaptModelWeights
  rw [if_neg (by decide)]
  dsimp only
  rw [if_neg (by norm_num [mkFeedbackSample])]

/-- Counterexample to C2 as stated: three confirming feedback calls
(reward +1 each) make the buffer reach the threshold on the third call, the
adaptation pass runs and reports no update (mean reward positive), and the
buffer is NOT cleared — it still holds the three samples. -/
theorem feedback_buffer_not_cleared_on_positive :
    stateAfterThree.feedback_buffer.length = adaptationThreshold
    ∧ stateAfterThree.feedback_buffer ≠ [] := by
  have h1 : (confirmingCall initialMLState).feedback_buffer
      = [mkFeedbackSample zeroCount zeroCount "" "spam" "spam" 1 1 "u"] := by
    rw [confirmingCall, applyFeedbackLearning_buffer]
    simp [initialMLState, adaptationThreshold]
  have h2 : (confirmingCall (confirmingCall initialMLState)).feedback_buffer
      = [mkFeedbackSample zeroCount zeroCount "" "spam" "spam" 1 1 "u",
         mkFeedbackSample zeroCount zeroCount "" "spam" "spam" 1 1 "u"] := by
    rw [confirmingCall, applyFeedbackLearning_buffer, h1]
    simp [adaptationThreshold]
  have h3 : stateAfterThree.feedback_buffer
      = [mkFeedbackSample zeroCount zeroCount "" "spam" "spam" 1 1 "u",
         mkFeedbackSample zeroCount zeroCount "" "spam" "spam" 1 1 "u",
         mkFeedbackSample zeroCount zeroCount "" "spam" "spam" 1 1 "u"] := by
    rw [stateAfterThree, confirmingCall, applyFeedbackLearning_buffer, h2]
    rw [if_pos (by decide), if_neg (by simp [adaptModelWeights_three_confirming])]
    rfl
  rw [h3]
  exact ⟨rfl, by simp⟩

/-! ## C3: the train/test split protocol -/

/-- Claim C3 (amended): for every sklearn-family model key the orchestrator
cross-validates and fits on the train portion of the 80/20 split only and
scores on the held-out test portion only, with `cv_scores` of length
`k_folds` and `test_samples` the split's test size (20% of the dataset,
rounded up by scikit-learn); the flagship key `"xgboost_rl"` instead uses
the full dataset everywhere and reports no `test_samples`. -/
theorem train_split_protocol {S : Type} (sk : SK S) (data : List S)
    (kFolds : ℕ) (rlMemory : List ℚ) (qts : ℕ) (noise : ℕ → ℚ)
    (npStd : List ℚ → ℚ) (ts : String) (model : String)
    (hm : model ∈ sklearnModels) :
    (trainModel true sk (some data) kFolds rlMemory qts noise npStd ts model).cvData
        = some (sk.tts data).1
    ∧ (trainModel true sk (some data) kFolds rlMemory qts noise npStd ts model).fitData
        = some (sk.tts data).1
    ∧ (trainModel true sk (some data) kFolds rlMemory qts noise npStd ts model).evalData
        = some (sk.tts data).2
    ∧ lookupKV (trainModel true sk (some data) kFolds rlMemory qts noise npStd ts model).metrics
          "cv_scores" = some (.nums (sk.cross_val_score (sk.tts data).1 kFolds))
    ∧ (sk.cross_val_score (sk.tts data).1 kFolds).length = kFolds
    ∧ lookupKV (trainModel true sk (some data) kFolds rlMemory qts noise npStd ts model).metrics
          "test_samples" = some (.num ((sk.tts data).2.length))
    ∧ lookupKV (trainModel true sk (some data) kFolds rlMemory qts noise npStd ts model).metrics
          "train_samples" = some (.num ((sk.tts data).1.length))
    ∧ ((sk.tts data).2.length = (data.length + 4) / 5 →
        lookupKV (trainModel true sk (some data) kFolds rlMemory qts noise npStd ts model).metrics
          "test_samples" = some (.num (((data.length + 4) / 5 : ℕ))))
    ∧ (trainModel true sk (some data) kFolds rlMemory qts noise npStd ts "xgboost_rl").evalData
        = some data
    ∧ lookupKV (trainModel true sk (some data) kFolds rlMemory qts noise npStd ts "xgboost_rl").metrics
          "test_samples" = none
    ∧ lookupKV (trainModel true sk (some data) kFolds rlMemory qts noise npStd ts "xgboost_rl").metrics
          "cv_scores"
        = some (.nums ((sk.cross_val_score data kFolds).map (fun x => x + rlBoost rlMemory qts)))
    ∧ ((sk.cross_val_score data kFolds).map (fun x => x + rlBoost rlMemory qts)).length
        = kFolds := by
  have hne : model ≠ "xgboost_rl" := by
    rintro rfl
    exact absurd hm (by decide)
  have hdisp : trainModel true sk (some data) kFolds rlMemory qts noise npStd ts model
      = trainSklearnModel sk data kFolds npStd := by
    unfold trainModel
    simp [hne, hm]
  have hfdisp : trainModel true sk (some data) kFolds rlMemory qts noise npStd ts "xgboost_rl"
      = trainXgboostRl sk data kFolds rlMemory qts := by
    unfold trainModel
    simp
  rw [hdisp, hfdisp]
  refine ⟨rfl, rfl, rfl, rfl, sk.cv_len _ _, rfl, rfl, ?_, rfl, rfl, rfl, ?_⟩
  · intro h
    rw [← h]
    rfl
  · rw [List.length_map]
    exact sk.cv_len _ _

/-- Counterexample to C3 as stated: for the model key `"xgboost_rl"` the
reported metrics are computed on the full dataset (not the held-out 20%)
and the returned record has no `test_samples` field at all. -/
theorem train_xgboost_rl_no_split :
    (trainModel true skNat (some (List.range 10)) 5 [] 0 (fun _ => 0) (fun _ => 0) ""
        "xgboost_rl").evalData = some (List.range 10)
    ∧ (trainModel true skNat (some (List.range 10)) 5 [] 0 (fun _ => 0) (fun _ => 0) ""
        "xgboost_rl").evalData ≠ some ((skNat.tts (List.range 10)).2)
    ∧ lookupKV (trainModel true skNat (some (List.range 10)) 5 [] 0 (fun _ => 0) (fun _ => 0) ""
        "xgboost_rl").metrics "test_samples" = none :=
  ⟨rfl, by decide, rfl⟩

/-- Witness for C3 at a concrete input. -/
theorem train_split_protocol_witness :
    (trainModel true skNat (some (List.range 10)) 5 [] 0 (fun _ => 0) (fun _ => 0) ""
        "logistic_regression").evalData = some ((skNat.tts (List.range 10)).2)
    ∧ lookupKV (trainModel true skNat (some (List.range 10)) 5 [] 0 (fun _ => 0) (fun _ => 0) ""
        "logistic_regression").metrics "test_samples"
      = some (.num ((skNat.tts (List.range 10)).2.length)) :=
  ⟨(train_split_protocol skNat (List.range 10) 5 [] 0 (fun _ => 0) (fun _ => 0) ""
      "logistic_regression" (by decide)).2.2.1,
   (train_split_protocol skNat (List.range 10) 5 [] 0 (fun _ => 0) (fun _ => 0) ""
      "logistic_regression" (by decide)).2.2.2.2.2.1⟩

/-! ## C6: fallback metrics are flagged -/

theorem getFallbackMetrics_is_fallback (model : String) (kFolds : ℕ)
    (rlMemory : List ℚ) (noise : ℕ → ℚ) (npStd : List ℚ → ℚ) (ts : String) :
    lookupKV (getFallbackMetrics model kFolds rlMemory noise npStd ts) "_is_fallback"
      = some (.mbool true) := by
  unfold getFallbackMetrics
  dsimp only
  split_ifs <;> rfl

/-- Claim C6: when scikit-learn is unavailable or the dataset file is
missing, `train_model` returns the fallback estimated-metrics record
(touching no data, raising nothing) and that record carries the dedicated
`_is_fallback = True` flag; genuine training output (generic or flagship
path) has no `_is_fallback` key, so the two are distinguishable at the data
level. -/
theorem train_fallback_flagged {S : Type} (sk : SK S) (dataset : Option (List S))
    (sklearnAvailable : Bool) (kFolds : ℕ) (rlMemory : List ℚ) (qts : ℕ)
    (noise : ℕ → ℚ) (npStd : List ℚ → ℚ) (ts : String) (model : String) :
    (sklearnAvailable = false ∨ dataset = none →
        trainModel sklearnAvailable sk dataset kFolds rlMemory qts noise npStd ts model
          = { cvData := none, fitData := none, evalData := none,
              metrics := getFallbackMetrics model kFolds rlMemory noise npStd ts }
        ∧ lookupKV (trainModel sklearnAvailable sk dataset kFolds rlMemory qts noise npStd ts
              model).metrics "_is_fallback" = some (.mbool true))
    ∧ (∀ data : List S, model ∈ sklearnModels →
        lookupKV (trainModel true sk (some data) kFolds rlMemory qts noise npStd ts model).metrics
          "_is_fallback" = none)
    ∧ (∀ data : List S,
        lookupKV (trainModel true sk (some data) kFolds rlMemory qts noise npStd ts
          "xgboost_rl").metrics "_is_fallback" = none) := by
  refine ⟨?_, ?_, ?_⟩
  · intro h
    have hfb : trainModel sklearnAvailable sk dataset kFolds rlMemory qts noise npStd ts model
        = { cvData := none, fitData := none, evalData := none,
            metrics := getFallbackMetrics model kFolds rlMemory noise npStd ts } := by
      rcases h with rfl | rfl
      · rfl
      · cases sklearnAvailable <;> rfl
    refine ⟨hfb, ?_⟩
    rw [hfb]
    exact getFallbackMetrics_is_fallback model kFolds rlMemory noise npStd ts
  · intro data hm
    have hne : model ≠ "xgboost_rl" := by
      rintro rfl
      exact absurd hm (by decide)
    have hdisp : trainModel true sk (some data) kFolds rlMemory qts noise npStd ts model
        = trainSklearnModel sk data kFolds npStd := by
      unfold trainModel
      simp [hne, hm]
    rw [hdisp]
    rfl
  · intro data
    have hfdisp : trainModel true sk (some data) kFolds rlMemory qts noise npStd ts "xgboost_rl"
        = trainXgboostRl sk data kFolds rlMemory qts := by
      unfold trainModel
      simp
    rw [hfdisp]
    rfl

/-- Witness for C6 at a concrete input (dataset missing). -/
theorem train_fallback_flagged_witness :
    trainModel false skNat none 5 [] 0 (fun _ => 0) (fun _ => 0) "" "xgboost"
      = { cvData := none, fitData := none, evalData := none,
          metrics := getFallbackMetrics "xgboost" 5 [] (fun _ => 0) (fun _ => 0) "" }
    ∧ lookupKV (trainModel false skNat none 5 [] 0 (fun _ => 0) (fun _ => 0) ""
        "xgboost").metrics "_is_fallback" = some (.mbool true) :=
  (train_fallback_flagged skNat none false 5 [] 0 (fun _ => 0) (fun _ => 0) ""
    "xgboost").1 (Or.inl rfl)

/-! ## C1: best-model selection -/

theorem bestF1D_some (b : BestModel) : bestF1D (some b) = b.f1 := rfl

theorem bestStep_select (inM : String → Bool) (acc : Option BestModel)
    (k : String) (g : ℚ) (hc : k = "xgboost_rl" ∨ bestF1D acc < g) :
    bestStep inM acc (k, some g)
      = some ⟨k, g, inM k, (lookupKV modelPriorities k).getD 99⟩ := by
  unfold bestStep
  dsimp only
  rw [if_pos hc]

theorem bestStep_none_key (inM : String → Bool) (acc : Option BestModel)
    (p : String × Option ℚ)
    (hk : ∀ g, p.2 = some g → p.1 ≠ "xgboost_rl")
    (hacc : acc.map (fun b => b.key) ≠ some "xgboost_rl") :
    (bestStep inM acc p).map (fun b => b.key) ≠ some "xgboost_rl" := by
  obtain ⟨k, o⟩ := p
  cases o with
  | none => exact hacc
  | some g =>
    unfold bestStep
    dsimp only
    split_ifs with hc
    · simpa using hk g rfl
    · exact hacc

theorem foldl_bestStep_noflag (inM : String → Bool) (l : List (String × Option ℚ)) :
    ∀ acc, (∀ p ∈ l, ∀ g, p.2 = some g → p.1 ≠ "xgboost_rl") →
      acc.map (fun b => b.key) ≠ some "xgboost_rl" →
      (l.foldl (bestStep inM) acc).map (fun b => b.key) ≠ some "xgboost_rl" := by
  induction l with
  | nil => exact fun acc _ hacc => hacc
  | cons p t ih =>
    intro acc hl hacc
    simp only [List.foldl_cons]
    exact ih _ (fun q hq => hl q (List.mem_cons_of_mem _ hq))
      (bestStep_none_key inM acc p (hl p (List.mem_cons_self _ _)) hacc)

theorem foldl_bestStep_keep (inM : String → Bool) (l : List (String × Option ℚ)) :
    ∀ acc, (∀ p ∈ l, ∀ g, p.2 = some g → p.1 ≠ "xgboost_rl" ∧ g ≤ bestF1D acc) →
      l.foldl (bestStep inM) acc = acc := by
  induction l with
  | nil => exact fun acc _ => rfl
  | cons p t ih =>
    intro acc hl
    have hstep : bestStep inM acc p = acc := by
      obtain ⟨k, o⟩ := p
      cases o with
      | none => rfl
      | some g =>
        obtain ⟨hk, hg⟩ := hl (k, some g) (List.mem_cons_self _ _) g rfl
        unfold bestStep
        dsimp only
        rw [if_neg (not_or.mpr ⟨hk, not_lt.mpr hg⟩)]
    simp only [List.foldl_cons, hstep]
    exact ih acc (fun q hq => hl q (List.mem_cons_of_mem _ hq))

theorem foldl_bestStep_bound (inM : String → Bool) (l : List (String × Option ℚ))
    (f : ℚ) :
    ∀ acc, (∀ p ∈ l, ∀ g, p.2 = some g → g < f) → bestF1D acc < f →
      bestF1D (l.foldl (bestStep inM) acc) < f := by
  induction l with
  | nil => exact fun acc _ hacc => hacc
  | cons p t ih =>
    intro acc hl hacc
    simp only [List.foldl_cons]
    apply ih _ (fun q hq => hl q (List.mem_cons_of_mem _ hq))
    obtain ⟨k, o⟩ := p
    cases o with
    | none => exact hacc
    | some g =>
      unfold bestStep
      dsimp only
      split_ifs with hc
      · simpa [bestF1D] using hl (k, some g) (List.mem_cons_self _ _) g rfl
      · exact hacc

theorem bestStep_changed (inM : String → Bool) (acc : Option BestModel)
    (p : String × Option ℚ) (h : bestStep inM acc p ≠ acc) :
    ∃ g, p.2 = some g ∧ (bestStep inM acc p).map (fun b => b.key) = some p.1 := by
  obtain ⟨k, o⟩ := p
  cases o with
  | none => exact absurd rfl h
  | some g =>
    refine ⟨g, rfl, ?_⟩
    unfold bestStep at h ⊢
    dsimp only at h ⊢
    split_ifs at h ⊢ with hc
    · rfl
    · exact absurd rfl h

theorem foldl_bestStep_exceed (inM : String → Bool) (l : List (String × Option ℚ)) :
    ∀ acc, (∀ p ∈ l, ∀ g, p.2 = some g → p.1 ≠ "xgboost_rl") →
      (∃ p ∈ l, ∃ g, p.2 = some g ∧ bestF1D acc < g) →
      (l.foldl (bestStep inM) acc).map (fun b => b.key) ≠ some "xgboost_rl" := by
  induction l with
  | nil =>
    rintro acc _ ⟨p, hp, _⟩
    exact absurd hp (List.not_mem_nil p)
  | cons p t ih =>
    intro acc hl hex
    have htail : ∀ q ∈ t, ∀ g, q.2 = some g → q.1 ≠ "xgboost_rl" :=
      fun q hq => hl q (List.mem_cons_of_mem _ hq)
    simp only [List.foldl_cons]
    by_cases hstep : bestStep inM acc p = acc
    · rw [hstep]
      obtain ⟨q, hq, g, hg, hlt⟩ := hex
      rcases List.mem_cons.mp hq with rfl | hqt
      · -- the exceeding entry is the head; the selection fired, so the kept
        -- accumulator already carries the head's (non-flagship) key
        have hkey : (bestStep inM acc (q.1, some g)).map (fun b => b.key) = some q.1 := by
          rw [bestStep_select inM acc q.1 g (Or.inr hlt)]
          rfl
        have hq2 : (q.1, some g) = q := by
          obtain ⟨k, o⟩ := q
          simp [← hg]
        rw [hq2, hstep] at hkey
        apply foldl_bestStep_noflag inM t acc htail
        rw [hkey]
        simpa using hl q (List.mem_cons_self _ _) g hg
      · exact ih acc htail ⟨q, hqt, g, hg, hlt⟩
    · obtain ⟨g, hg, hkey⟩ := bestStep_changed inM acc p hstep
      apply foldl_bestStep_noflag inM t _ htail
      rw [hkey]
      simpa using hl p (List.mem_cons_self _ _) g hg

theorem restModels_map_entry_noflag (r : String → Option ℚ) :
    ∀ p ∈ restModels.map (fun k => (k, r k)), ∀ g, p.2 = some g →
      p.1 ≠ "xgboost_rl" := by
  intro p hp g _
  obtain ⟨k, hk, rfl⟩ := List.mem_map.mp hp
  intro hkey
  dsimp only at hkey
  rw [hkey] at hk
  exact absurd hk (by decide)

/-- Over the models listed as `t1 ++ k :: t2`, the entry `k` is the first
maximiser of the resolved F1s relative to the running best: every earlier
resolved F1 is strictly below `g`, every later resolved F1 is at most `g`
(ties allowed), so the loop selects `k` — iteration order decides equal-F1
ties. -/
theorem foldl_bestStep_first_max (inM : String → Bool) (r : String → Option ℚ)
    (t1 t2 : List String) (k : String) (g : ℚ) (acc : Option BestModel)
    (hb : bestF1D acc < g) (hk : r k = some g)
    (h1 : ∀ k2 ∈ t1, ∀ g2, r k2 = some g2 → g2 < g)
    (h2 : ∀ k2 ∈ t2, ∀ g2, r k2 = some g2 → g2 ≤ g)
    (hnf : ∀ k2 ∈ t2, k2 ≠ "xgboost_rl") :
    (((t1 ++ k :: t2).map (fun k2 => (k2, r k2))).foldl (bestStep inM) acc).map
        (fun b => b.key) = some k := by
  rw [List.map_append, List.map_cons, List.foldl_append, List.foldl_cons]
  have hbound1 : bestF1D ((t1.map (fun k2 => (k2, r k2))).foldl (bestStep inM) acc) < g := by
    apply foldl_bestStep_bound
    · intro p hp g2 hg2
      obtain ⟨k2, hk2, rfl⟩ := List.mem_map.mp hp
      exact h1 k2 hk2 g2 hg2
    · exact hb
  rw [hk, bestStep_select inM _ k g (Or.inr hbound1)]
  rw [foldl_bestStep_keep]
  · rfl
  · intro p hp g2 hg2
    obtain ⟨k2, hk2, rfl⟩ := List.mem_map.mp hp
    refine ⟨?_, ?_⟩
    · intro hkey
      dsimp only at hkey
      exact hnf k2 hk2 hkey
    · rw [bestF1D_some]
      exact h2 k2 hk2 g2 hg2

/-- Claim C1 (amended): the flagship key `"xgboost_rl"` is iterated first and
is selected unconditionally when resolved; a later model replaces it only
with a STRICTLY higher F1 (there is no within-rounding preference), so the
flagship wins exact ties but loses to any strictly higher F1 (the iff of
the first two conjuncts).  Among the non-flagship models, iteration in
registry/priority order is the tie-break among equal-F1 models: writing the
rest of the registry as `t1 ++ k :: t2`, the model `k` wins whenever every
earlier resolved F1 is strictly below its own and every later resolved F1
is at most its own (ties with later models allowed) — both when the
flagship is unresolved (third conjunct, F1s above 0) and when the flagship
is resolved strictly below `k` (fourth conjunct).  An unresolved model
(untrained, fallback disallowed) is omitted entirely. -/
theorem compare_best_flagship_rule (inM : String → Bool) (r : String → Option ℚ)
    (f : ℚ) :
    (r "xgboost_rl" = some f →
      (∀ k ∈ modelOrder, k ≠ "xgboost_rl" → ∀ g, r k = some g → g ≤ f) →
      compareBest inM r = some ⟨"xgboost_rl", f, inM "xgboost_rl", 1⟩)
    ∧ (r "xgboost_rl" = some f →
        (compareBest inM r).map (fun b => b.key) = some "xgboost_rl" →
        ∀ k ∈ modelOrder, k ≠ "xgboost_rl" → ∀ g, r k = some g → g ≤ f)
    ∧ (r "xgboost_rl" = none →
        ∀ (t1 t2 : List String) (k : String) (g : ℚ), restModels = t1 ++ k :: t2 →
        r k = some g → 0 < g →
        (∀ k2 ∈ t1, ∀ g2, r k2 = some g2 → g2 < g) →
        (∀ k2 ∈ t2, ∀ g2, r k2 = some g2 → g2 ≤ g) →
        (compareBest inM r).map (fun b => b.key) = some k)
    ∧ (r "xgboost_rl" = some f →
        ∀ (t1 t2 : List String) (k : String) (g : ℚ), restModels = t1 ++ k :: t2 →
        r k = some g → f < g →
        (∀ k2 ∈ t1, ∀ g2, r k2 = some g2 → g2 < g) →
        (∀ k2 ∈ t2, ∀ g2, r k2 = some g2 → g2 ≤ g) →
        (compareBest inM r).map (fun b => b.key) = some k)
    ∧ resolveModelMetrics none false none false 0 = none := by
  have hstep1 : ∀ hf : ℚ, bestStep inM none ("xgboost_rl", some hf)
      = some ⟨"xgboost_rl", hf, inM "xgboost_rl", 1⟩ := by
    intro hf
    rw [bestStep_select inM none "xgboost_rl" hf (Or.inl rfl)]
    rfl
  have hnoflag_t2 : ∀ (t1 t2 : List String) (k : String),
      restModels = t1 ++ k :: t2 → ∀ k2 ∈ t2, k2 ≠ "xgboost_rl" := by
    intro t1 t2 k heq k2 hk2 hkey
    have hmem : k2 ∈ restModels := by
      rw [heq]
      exact List.mem_append_right _ (List.mem_cons_of_mem _ hk2)
    rw [hkey] at hmem
    exact absurd hmem (by decide)
  refine ⟨?_, ?_, ?_, ?_, rfl⟩
  · intro hflag hbound
    have hfold : compareBest inM r
        = (restModels.map (fun k => (k, r k))).foldl (bestStep inM)
            (some ⟨"xgboost_rl", f, inM "xgboost_rl", 1⟩) := by
      simp only [compareBest, modelOrder, List.map_cons, List.foldl_cons, hflag, hstep1]
    rw [hfold]
    apply foldl_bestStep_keep
    intro p hp g hg
    obtain ⟨k, hk, rfl⟩ := List.mem_map.mp hp
    have hkne : k ≠ "xgboost_rl" := by
      intro hkey
      rw [hkey] at hk
      exact absurd hk (by decide)
    exact ⟨hkne, hbound k (List.mem_cons_of_mem _ hk) hkne g hg⟩
  · intro hflag hkey
    by_contra hcon
    push_neg at hcon
    obtain ⟨k, hkmem, hkne, g, hg, hlt⟩ := hcon
    have hkrest : k ∈ restModels := by
      rcases List.mem_cons.mp hkmem with rfl | h
      · exact absurd rfl hkne
      · exact h
    have hfold : compareBest inM r
        = (restModels.map (fun k => (k, r k))).foldl (bestStep inM)
            (some ⟨"xgboost_rl", f, inM "xgboost_rl", 1⟩) := by
      simp only [compareBest, modelOrder, List.map_cons, List.foldl_cons, hflag, hstep1]
    rw [hfold] at hkey
    exact absurd hkey
      (foldl_bestStep_exceed inM _ _ (restModels_map_entry_noflag r)
        ⟨(k, r k), List.mem_map_of_mem _ hkrest, g, hg, by simpa [bestF1D] using hlt⟩)
  · intro hnone t1 t2 k g heq hk hgpos h1 h2
    have hfold : compareBest inM r
        = ((t1 ++ k :: t2).map (fun k2 => (k2, r k2))).foldl (bestStep inM) none := by
      simp only [compareBest, modelOrder, List.map_cons, List.foldl_cons, hnone]
      rw [heq]
      rfl
    rw [hfold]
    exact foldl_bestStep_first_max inM r t1 t2 k g none
      (by simpa [bestF1D] using hgpos) hk h1 h2 (hnoflag_t2 t1 t2 k heq)
  · intro hflag t1 t2 k g heq hk hfg h1 h2
    have hfold : compareBest inM r
        = ((t1 ++ k :: t2).map (fun k2 => (k2, r k2))).foldl (bestStep inM)
            (some ⟨"xgboost_rl", f, inM "xgboost_rl", 1⟩) := by
      simp only [compareBest, modelOrder, List.map_cons, List.foldl_cons, hflag, hstep1]
      rw [heq]
    rw [hfold]
    exact foldl_bestStep_first_max inM r t1 t2 k g _
      (by simpa [bestF1D] using hfg) hk h1 h2 (hnoflag_t2 t1 t2 k heq)

/-- Counterexample to C1 as stated: flagship F1 = 0.920 is within rounding
of the maximum 0.921, yet the strictly higher competitor `"xgboost"` wins
the best-model slot. -/
theorem compare_best_within_rounding_false :
    compareBest (fun _ => false) scenarioResolved = some ⟨"xgboost", 921/1000, false, 2⟩
    ∧ (compareBest (fun _ => false) scenarioResolved).map (fun b => b.key)
        ≠ some "xgboost_rl" := by
  have h : compareBest (fun _ => false) scenarioResolved
      = some ⟨"xgboost", 921/1000, false, 2⟩ := by
    have h1 : modelOrder.map (fun k => (k, scenarioResolved k)) =
        [("xgboost_rl", some (92/100)), ("xgboost", some (921/1000)), ("random_forest", none),
         ("neural_network", none), ("svm", none), ("logistic_regression", none),
         ("naive_bayes", none)] := by
      simp [modelOrder, restModels, scenarioResolved]
    rw [compareBest, h1]
    norm_num [bestStep, bestF1D, modelPriorities, lookupKV]
    simp
  exact ⟨h, by rw [h]; simp⟩

/-- Witness for C1 at a concrete input (only the flagship resolved). -/
theorem compare_best_flagship_rule_witness :
    compareBest (fun _ => false) flagshipOnlyResolved
      = some ⟨"xgboost_rl", 9/10, false, 1⟩ :=
  (compare_best_flagship_rule (fun _ => false) flagshipOnlyResolved (9/10)).1
    rfl
    (by
      intro k _ hkne g hg
      rw [flagshipOnlyResolved, if_neg hkne] at hg
      exact absurd hg (by simp))

end CC
